import Mathlib

/-!
Verification of the Chimera provider-orchestration layer against its
specification.  The client side (the Command Center React app,
frontend App.jsx) is embedded directly from the source; the backend
HTTP handlers (StatusAggregator, ToolDispatcher, ProviderRouter,
BrowserSessionManager) are not part of the source tree and are
modelled from the specification where a claim needs them.
-/

namespace Chimera

/-- A JSON value as exchanged between the client and the backend.
Numbers are modelled as integers (the values the client sends and
reads in the verified claims are integral pixel deltas, millisecond
counts and strings). -/
inductive Json : Type where
  | null : Json
  | bool : Bool → Json
  | num : Int → Json
  | str : String → Json
  | arr : List Json → Json
  | obj : List (String × Json) → Json
deriving Repr

/-- JavaScript property access on a JSON value: defined on objects,
returning the first binding of the key; undefined (none) otherwise. -/
def Json.getField (j : Json) (k : String) : Option Json :=
  match j with
  | .obj fields => (fields.find? (fun kv => decide (kv.1 = k))).map (fun kv => kv.2)
  | _ => none

/-- JavaScript array indexing on a JSON value. -/
def Json.index? (j : Json) (i : Nat) : Option Json :=
  match j with
  | .arr l => l.get? i
  | _ => none

/-- The keys of a JSON object, in order; empty for non-objects. -/
def Json.topKeys (j : Json) : List String :=
  match j with
  | .obj fields => fields.map (fun kv => kv.1)
  | _ => []

/-- JavaScript string coercion (as in a template literal or the Error
constructor).  Arrays are abstracted to the empty string; none of the
verified properties reaches that case. -/
def Json.jsString : Json → String
  | .null => "null"
  | .bool b => if b then "true" else "false"
  | .num n => toString n
  | .str s => s
  | .arr _ => ""
  | .obj _ => "[object Object]"

/-- String coercion of a possibly-undefined value, as a template
literal performs it. -/
def jsTemplate : Option Json → String
  | none => "undefined"
  | some v => v.jsString

/-- JavaScript truthiness of a possibly-undefined value: undefined,
null, false, 0 and the empty string are falsy. -/
def jsTruthy : Option Json → Bool
  | none => false
  | some .null => false
  | some (.bool b) => b
  | some (.num n) => !decide (n = 0)
  | some (.str s) => !decide (s = "")
  | some (.arr _) => true
  | some (.obj _) => true

/-- The JavaScript idiom (x || d) for a string default: the coerced
value when truthy, the default otherwise. -/
def jsOrDefault (x : Option Json) (d : String) : String :=
  if jsTruthy x then jsTemplate x else d

/-- The JavaScript idiom (x || d) on a possibly-undefined string
(empty strings are falsy). -/
def jsOrS : Option String → String → String
  | some s, d => if s = "" then d else s
  | none, d => d

/-- One entry of the thought log as the client pushes it: a kind tag
and a message (the timestamp is irrelevant to the verified claims). -/
structure LogEntry where
  kind : String
  msg : String
deriving DecidableEq, Repr

/-- pushLog from the client (App.jsx lines 30-32): prepend the new
entry and keep at most the first 200 entries. -/
def pushLog (e : LogEntry) (log : List LogEntry) : List LogEntry :=
  (e :: log).take 200

/-- One session entry of the status object, as the client consumes
it: name, screenshot URL and status string. -/
structure SessionRow where
  name : String
  screenshot : String
  status : String
deriving DecidableEq, Repr

/-- The status object the client stores from GET /api/status. -/
structure ClientStatus where
  plugins : List String
  active_sessions : List SessionRow
  tools : List String
deriving DecidableEq, Repr

/-- The model-reset step of fetchStatus (App.jsx lines 40-43): keep
the current model if the plugins list contains it; otherwise fall
back to ollama when available, else to the first plugin, the
JavaScript || making an empty (or missing) first element fall back to
ollama. -/
def nextModel (current : String) (plugins : List String) : String :=
  if current ∈ plugins then current
  else if "ollama" ∈ plugins then "ollama"
  else jsOrS plugins.head? "ollama"

/-- browserModels from the client (App.jsx lines 24-28): the plugins
that either have an active session entry or are the hardcoded name
chatgpt. -/
def browserModels (st : ClientStatus) : List String :=
  st.plugins.filter (fun p => decide (p ∈ st.active_sessions.map SessionRow.name ∨ p = "chatgpt"))

/-- Argument object the client sends for the goto tool (App.jsx line 208). -/
def gotoArgs (url : String) : Json :=
  .obj [("url", .str url)]

/-- Argument object the client sends for the click tool (App.jsx line 221). -/
def clickArgs (selector : String) : Json :=
  .obj [("selector", .str selector)]

/-- Argument object the client sends for the type tool (App.jsx line 240):
locator, text and the clear-before-type flag, always true. -/
def typeArgs (selector text : String) : Json :=
  .obj [("selector", .str selector), ("text", .str text), ("clear", .bool true)]

/-- Argument object the client sends for the scroll tool (App.jsx line 254). -/
def scrollArgs (dy : Int) : Json :=
  .obj [("dy", .num dy)]

/-- Argument object the client sends for the wait tool (App.jsx lines
261 and 264, with ms 1000 and 3000). -/
def waitArgs (ms : Int) : Json :=
  .obj [("ms", .num ms)]

/-- The required argument shape of each tool following the wording of
the specification (section 4.3): goto requires a URL string, click a
locator string, type a locator string plus text and a clear flag,
scroll a signed pixel delta, wait a millisecond duration.  This
definition follows the words of the spec, to be compared with the
argument objects the client constructs. -/
def specArgsShape (tool : String) (a : Json) : Prop :=
  match tool with
  | "goto" => ∃ url, a.getField "url" = some (.str url)
  | "click" => ∃ loc, a.getField "selector" = some (.str loc)
  | "type" =>
      (∃ loc, a.getField "selector" = some (.str loc)) ∧
      (∃ t, a.getField "text" = some (.str t)) ∧
      (∃ b, a.getField "clear" = some (.bool b))
  | "scroll" => ∃ dy : Int, a.getField "dy" = some (.num dy)
  | "wait" => ∃ ms : Int, 0 ≤ ms ∧ a.getField "ms" = some (.num ms)
  | _ => False

/-- Abstracted message of the TypeError the client would hit reading
message off an undefined result field; never reached for responses of
the documented shape. -/
def typeErrorLog : String :=
  "TypeError: Cannot read properties of undefined"

/-- The log entry runTool pushes once the fetch resolved (App.jsx
lines 89-104): on an ok response it logs the string at
data.result.message prefixed by the tool name; on a non-ok response
it throws Error(data?.detail || "Tool error"), whose string form the
catch handler logs. -/
def runToolLog (tool : String) (resOk : Bool) (data : Json) : LogEntry :=
  if resOk then
    match data.getField "result" with
    | some .null => ⟨"error", typeErrorLog⟩
    | some r => ⟨"result", tool ++ ": " ++ jsTemplate (r.getField "message")⟩
    | none => ⟨"error", typeErrorLog⟩
  else
    ⟨"error", "Error: " ++ jsOrDefault (data.getField "detail") "Tool error"⟩

/-- The request runInference issues (App.jsx lines 62-87): a
multipart vision request when a file is selected, a JSON chat
completion request otherwise. -/
inductive InferenceRequest where
  | vision (fields : List (String × String))
  | chat (body : Json)
deriving Repr

/-- Whether an inference request took the vision branch. -/
def InferenceRequest.isVision : InferenceRequest → Bool
  | .vision _ => true
  | .chat _ => false

/-- The multipart field names of an inference request. -/
def InferenceRequest.formFields : InferenceRequest → List String
  | .vision fields => fields.map (fun kv => kv.1)
  | .chat _ => []

/-- runInference from the client (App.jsx lines 62-87), up to the
request it sends: with a selected file it appends the form fields
model, prompt (defaulting to "Describe this image" when empty) and
file and posts to /api/vision; otherwise it posts the chat completion
body (prompt defaulting to "Hello") to /v1/chat/completions. -/
def runInferenceRequest (model prompt : String) (selectedFile : Option String) : InferenceRequest :=
  match selectedFile with
  | some f =>
      .vision [("model", model),
               ("prompt", if prompt = "" then "Describe this image" else prompt),
               ("file", f)]
  | none =>
      .chat (Json.obj
        [("model", .str model),
         ("messages", .arr [Json.obj
            [("role", .str "user"),
             ("content", .str (if prompt = "" then "Hello" else prompt))]])])

/-- The optional-chained read data?.choices?.[0]?.message?.content the
client performs on a chat completion response (App.jsx line 82). -/
def extractChatContent (data : Json) : Option Json :=
  (((data.getField "choices").bind (fun c => c.index? 0)).bind
    (fun c => c.getField "message")).bind (fun m => m.getField "content")

/-- The message the client logs for a chat completion response:
the extracted content, or "No response" when falsy. -/
def chatLogMsg (data : Json) : String :=
  jsOrDefault (extractChatContent data) "No response"

/-- The message the client logs for a vision response (App.jsx line
74): data.response, or "No response" when falsy. -/
def visionLogMsg (data : Json) : String :=
  jsOrDefault (data.getField "response") "No response"

/-- Modelled from the spec: the HTTP response of POST
/api/computer/{model}/tool (the ToolDispatcher.execute handler is not
under src/).  Per the spec it is either a 2xx whose body is
{result: {message: string}} or a non-2xx whose body is
{detail: string}. -/
inductive ToolHttpResponse where
  | ok (message : String)
  | err (detail : String)
deriving DecidableEq, Repr

/-- The res.ok flag of a tool HTTP response. -/
def ToolHttpResponse.status : ToolHttpResponse → Bool
  | .ok _ => true
  | .err _ => false

/-- The JSON body of a tool HTTP response. -/
def ToolHttpResponse.body : ToolHttpResponse → Json
  | .ok m => .obj [("result", .obj [("message", .str m)])]
  | .err d => .obj [("detail", .str d)]

/-- Modelled from the spec: the JSON rendering of one live session in
the StatusAggregator snapshot, with the three fields name, screenshot
and status always populated. -/
def sessionJson (s : SessionRow) : Json :=
  .obj [("name", .str s.name), ("screenshot", .str s.screenshot), ("status", .str s.status)]

/-- Modelled from the spec: StatusAggregator.snapshot serialized as
the GET /api/status body (the backend is not under src/): plugins,
active_sessions and tools. -/
def statusSnapshot (plugins : List String) (sessions : List SessionRow) (tools : List String) : Json :=
  .obj [("plugins", .arr (plugins.map .str)),
        ("active_sessions", .arr (sessions.map sessionJson)),
        ("tools", .arr (tools.map .str))]

/-- What the session panel renders for one session entry (App.jsx
lines 283-293): the img src with a cache-busting query derived from
the current time, and the caption joining name and status. -/
def renderSessionEntry (t : Int) (s : Json) : String × String :=
  (jsTemplate (s.getField "screenshot") ++ "?t=" ++ toString t,
   jsTemplate (s.getField "name") ++ " • " ++ jsTemplate (s.getField "status"))

/-- Modelled from the spec: the successful response body of POST
/v1/chat/completions (ProviderRouter.route(chat) is not under src/):
{choices: [{message: {content: string}}]}. -/
def chatCompletionsResponse (content : String) : Json :=
  .obj [("choices", .arr [Json.obj [("message", Json.obj [("content", .str content)])]])]

/-- Modelled from the spec: the successful response body of POST
/api/vision (ProviderRouter.route(vision) is not under src/):
{response: string}. -/
def visionResponse (answer : String) : Json :=
  .obj [("response", .str answer)]

/-- Modelled from the spec: the lifecycle state of a browser session
(section 4.2). -/
inductive SessionState where
  | spawning
  | awaitingLogin
  | active
  | degraded
  | closed
deriving DecidableEq, Repr

/-- Modelled from the spec: one live browser session, identified by a
process-unique id; the provider name keys the session table. -/
structure BrowserSession where
  id : Nat
  provider : String
  state : SessionState
deriving DecidableEq, Repr

/-- Modelled from the spec: the BrowserSessionManager state (not
under src/): the session table and a counter producing fresh session
identities (a fresh underlying browser process per increment). -/
structure SessionManager where
  table : List BrowserSession
  nextId : Nat
deriving Repr

/-- Lookup of the live session of a provider in the table. -/
def SessionManager.lookup (m : SessionManager) (p : String) : Option BrowserSession :=
  m.table.find? (fun s => decide (s.provider = p))

/-- Modelled from the spec: spawn(providerName) is idempotent when a
live (non-Closed) session exists, returning the existing session;
otherwise it starts a fresh browser process with a fresh identity, in
the Spawning state. -/
def SessionManager.spawn (m : SessionManager) (p : String) : BrowserSession × SessionManager :=
  match m.lookup p with
  | some s =>
      if s.state = SessionState.closed then
        (⟨m.nextId, p, .spawning⟩, ⟨⟨m.nextId, p, .spawning⟩ :: m.table, m.nextId + 1⟩)
      else
        (s, m)
  | none =>
      (⟨m.nextId, p, .spawning⟩, ⟨⟨m.nextId, p, .spawning⟩ :: m.table, m.nextId + 1⟩)

/-- Modelled from the spec: close(providerName) transitions the
session to Closed and removes it from the active-set lookup; a no-op
when no live session exists. -/
def SessionManager.close (m : SessionManager) (p : String) : SessionManager :=
  ⟨m.table.filter (fun s => decide (s.provider ≠ p)), m.nextId⟩

/-- Modelled from the spec: healthCheck never throws, returning the
session state and a synthetic Closed result for an unknown session. -/
def SessionManager.healthCheck (m : SessionManager) (p : String) : SessionState :=
  match m.lookup p with
  | some s => s.state
  | none => .closed

/-- Well-formedness of a session manager: every session identity in
the table was drawn from the counter. -/
def SessionManager.WF (m : SessionManager) : Prop :=
  ∀ s ∈ m.table, s.id < m.nextId

/-- The head of the log right after a push is the pushed entry. -/
theorem pushLog_head (e : LogEntry) (log : List LogEntry) : (pushLog e log).head? = some e :=
  rfl

/-- A push never leaves more than 200 entries. -/
theorem pushLog_len_le (e : LogEntry) (log : List LogEntry) : (pushLog e log).length ≤ 200 := by
  simp [pushLog]

/-- After folding a nonempty sequence of pushes, the head is the last
pushed entry. -/
theorem foldl_pushLog_head (es : List LogEntry) (x : LogEntry) :
    ∀ log : List LogEntry, es.getLast? = some x →
      (es.foldl (fun l y => pushLog y l) log).head? = some x := by
  induction es with
  | nil => intro log h; simp at h
  | cons e es ih =>
    intro log h
    cases es with
    | nil =>
      simp at h
      subst h
      exact pushLog_head e log
    | cons e2 es2 =>
      rw [List.getLast?_cons_cons] at h
      exact ih (pushLog e log) h

/-- After folding a nonempty sequence of pushes, the log holds at most
200 entries. -/
theorem foldl_pushLog_len (es : List LogEntry) :
    ∀ log : List LogEntry, es ≠ [] →
      (es.foldl (fun l y => pushLog y l) log).length ≤ 200 := by
  induction es with
  | nil => intro log h; exact absurd rfl h
  | cons e es ih =>
    intro log _
    cases es with
    | nil => exact pushLog_len_le e log
    | cons e2 es2 => exact ih (pushLog e log) (by simp)

/-- Spawning leaves a live (non-Closed) session for the provider in
the table, and the lookup returns exactly the session spawn returned. -/
theorem spawn_lookup_self (m : SessionManager) (p : String) :
    ((m.spawn p).2).lookup p = some (m.spawn p).1 ∧
      (m.spawn p).1.state ≠ SessionState.closed := by
  unfold SessionManager.spawn
  cases h : m.lookup p with
  | none =>
    refine ⟨?_, by simp⟩
    show (⟨⟨m.nextId, p, .spawning⟩ :: m.table, m.nextId + 1⟩ : SessionManager).lookup p = _
    simp [SessionManager.lookup]
  | some s =>
    by_cases hc : s.state = SessionState.closed
    · refine ⟨?_, by simp [hc]⟩
      simp only [hc, if_pos rfl]
      show (⟨⟨m.nextId, p, .spawning⟩ :: m.table, m.nextId + 1⟩ : SessionManager).lookup p = _
      simp [SessionManager.lookup]
    · simp only [hc, if_neg hc]
      exact ⟨h, hc⟩

/-- Spawning on a provider with a live session is the identity. -/
theorem spawn_live (m : SessionManager) (p : String) (s : BrowserSession)
    (h1 : m.lookup p = some s) (h2 : s.state ≠ SessionState.closed) :
    m.spawn p = (s, m) := by
  simp [SessionManager.spawn, h1, h2]

/-- Spawning on a provider with no live session creates a fresh
session off the identity counter. -/
theorem spawn_fresh (m : SessionManager) (p : String) (h : m.lookup p = none) :
    m.spawn p =
      (⟨m.nextId, p, .spawning⟩, ⟨⟨m.nextId, p, .spawning⟩ :: m.table, m.nextId + 1⟩) := by
  simp [SessionManager.spawn, h]

/-- After close, the lookup for the provider is absent. -/
theorem lookup_close_eq_none (m : SessionManager) (p : String) :
    (m.close p).lookup p = none := by
  simp only [SessionManager.close, SessionManager.lookup, List.find?_eq_none, List.mem_filter,
    decide_eq_true_eq, and_imp]
  intro x _ hx
  simpa using hx

/-- C1 (amended): every tool response is either an ok response whose
body is an object carrying result.message, which runTool reads and
logs verbatim, or a non-ok response whose body carries detail, which
runTool surfaces as the error when detail is a non-empty string,
falling back to the literal Tool error when detail is empty. -/
theorem runTool_result_and_detail (tool msg detail : String) :
    ((ToolHttpResponse.ok msg).status = true ∧
     ((ToolHttpResponse.ok msg).body.getField "result").bind (fun r => r.getField "message") =
       some (.str msg) ∧
     runToolLog tool (ToolHttpResponse.ok msg).status (ToolHttpResponse.ok msg).body =
       ⟨"result", tool ++ ": " ++ msg⟩) ∧
    ((ToolHttpResponse.err detail).status = false ∧
     (ToolHttpResponse.err detail).body.getField "detail" = some (.str detail) ∧
     runToolLog tool (ToolHttpResponse.err detail).status (ToolHttpResponse.err detail).body =
       ⟨"error", "Error: " ++ (if detail = "" then "Tool error" else detail)⟩) := by
  refine ⟨⟨rfl, rfl, rfl⟩, rfl, rfl, ?_⟩
  by_cases h : detail = "" <;>
    simp [runToolLog, ToolHttpResponse.status, ToolHttpResponse.body, Json.getField,
      jsOrDefault, jsTruthy, jsTemplate, Json.jsString, h]

/-- C1 counterexample: on a non-2xx response whose body is the object
with detail bound to the empty string, the client does not surface
data.detail but the fallback Tool error, so the error surfaced is not
exactly data.detail. -/
theorem runTool_empty_detail_fallback :
    (ToolHttpResponse.err "").body.getField "detail" = some (.str "") ∧
    runToolLog "goto" (ToolHttpResponse.err "").status (ToolHttpResponse.err "").body =
      ⟨"error", "Error: Tool error"⟩ ∧
    ("Error: Tool error" : String) ≠ "Error: " ++ "" :=
  ⟨rfl, by decide, by decide⟩

/-- C2: every element of active_sessions in a status snapshot is a
record with the three fields name, screenshot and status populated
with strings, this is the array the snapshot stores under
active_sessions (which fetchStatus stores verbatim), and the session
panel renders exactly those three fields. -/
theorem status_sessions_fully_populated (ps ts : List String) (ss : List SessionRow)
    (e : Json) (t : Int) (he : e ∈ ss.map sessionJson) :
    (statusSnapshot ps ss ts).getField "plugins" = some (.arr (ps.map .str)) ∧
    (statusSnapshot ps ss ts).getField "active_sessions" = some (.arr (ss.map sessionJson)) ∧
    (statusSnapshot ps ss ts).getField "tools" = some (.arr (ts.map .str)) ∧
    ∃ r : SessionRow, r ∈ ss ∧ e = sessionJson r ∧
      e.getField "name" = some (.str r.name) ∧
      e.getField "screenshot" = some (.str r.screenshot) ∧
      e.getField "status" = some (.str r.status) ∧
      renderSessionEntry t e =
        (r.screenshot ++ "?t=" ++ toString t, r.name ++ " • " ++ r.status) := by
  obtain ⟨r, hr, rfl⟩ := List.mem_map.mp he
  exact ⟨rfl, rfl, rfl, r, hr, rfl, rfl, rfl, rfl, rfl⟩

/-- C2 witness: a concrete snapshot with one chatgpt session. -/
theorem status_sessions_fully_populated_witness :
    (sessionJson ⟨"chatgpt", "/screens/chatgpt.png", "active"⟩ ∈
      ([⟨"chatgpt", "/screens/chatgpt.png", "active"⟩] : List SessionRow).map sessionJson) ∧
    (statusSnapshot ["ollama", "chatgpt"] [⟨"chatgpt", "/screens/chatgpt.png", "active"⟩]
        ["goto"]).getField "active_sessions" =
      some (.arr (([⟨"chatgpt", "/screens/chatgpt.png", "active"⟩] : List SessionRow).map
        sessionJson)) :=
  ⟨by simp,
   (status_sessions_fully_populated ["ollama", "chatgpt"] ["goto"]
      [⟨"chatgpt", "/screens/chatgpt.png", "active"⟩]
      (sessionJson ⟨"chatgpt", "/screens/chatgpt.png", "active"⟩) 0 (by simp)).2.1⟩

/-- C3: the argument objects the client constructs for the five tools
are exactly the objects with keys url, selector,
selector-text-clear, dy and ms, and each matches the required shape
the spec states for its tool. -/
theorem client_tool_args_match_spec (url sel txt : String) (dy : Int) :
    (specArgsShape "goto" (gotoArgs url) ∧ (gotoArgs url).topKeys = ["url"]) ∧
    (specArgsShape "click" (clickArgs sel) ∧ (clickArgs sel).topKeys = ["selector"]) ∧
    (specArgsShape "type" (typeArgs sel txt) ∧
      (typeArgs sel txt).topKeys = ["selector", "text", "clear"]) ∧
    (specArgsShape "scroll" (scrollArgs dy) ∧ (scrollArgs dy).topKeys = ["dy"]) ∧
    (specArgsShape "wait" (waitArgs 1000) ∧ specArgsShape "wait" (waitArgs 3000) ∧
      (waitArgs 1000).topKeys = ["ms"] ∧ (waitArgs 3000).topKeys = ["ms"]) :=
  ⟨⟨⟨url, rfl⟩, rfl⟩, ⟨⟨sel, rfl⟩, rfl⟩,
   ⟨⟨⟨sel, rfl⟩, ⟨txt, rfl⟩, ⟨true, rfl⟩⟩, rfl⟩, ⟨⟨dy, rfl⟩, rfl⟩,
   ⟨1000, by norm_num, rfl⟩, ⟨3000, by norm_num, rfl⟩, rfl, rfl⟩

/-- C4: a plugin p is classified among the browser models exactly when
p has an entry among the active session names or p is the hardcoded
name chatgpt. -/
theorem browserModels_heuristic (st : ClientStatus) (p : String) (hp : p ∈ st.plugins) :
    p ∈ browserModels st ↔ (p ∈ st.active_sessions.map SessionRow.name ∨ p = "chatgpt") := by
  simp [browserModels, List.mem_filter, hp]

/-- C4 witness: chatgpt among the plugins with no active session is a
browser model by the hardcoded-name disjunct. -/
theorem browserModels_heuristic_witness :
    ("chatgpt" ∈ (⟨["ollama", "chatgpt"], [], []⟩ : ClientStatus).plugins) ∧
    ("chatgpt" ∈ browserModels ⟨["ollama", "chatgpt"], [], []⟩ ↔
      ("chatgpt" ∈ ([] : List SessionRow).map SessionRow.name ∨ "chatgpt" = "chatgpt")) :=
  ⟨by decide, browserModels_heuristic ⟨["ollama", "chatgpt"], [], []⟩ "chatgpt" (by decide)⟩

/-- C5: the successful chat completion response nests the content
under choices, a one-element array of message records, and the
optional-chained read the client performs returns exactly that
content (displayed verbatim unless empty, which the JavaScript ||
replaces by No response). -/
theorem chat_completions_roundtrip (content : String) :
    (chatCompletionsResponse content).getField "choices" =
      some (.arr [Json.obj [("message", Json.obj [("content", .str content)])]]) ∧
    extractChatContent (chatCompletionsResponse content) = some (.str content) ∧
    chatLogMsg (chatCompletionsResponse content) =
      (if content = "" then "No response" else content) := by
  refine ⟨rfl, rfl, ?_⟩
  by_cases h : content = "" <;>
    simp [chatLogMsg, extractChatContent, chatCompletionsResponse, Json.getField, Json.index?,
      jsOrDefault, jsTruthy, jsTemplate, Json.jsString, h]

/-- C6: runInference takes the vision branch exactly when a file is
selected, sending precisely the three multipart fields model, prompt
and file, and it reads data.response off the vision response. -/
theorem vision_branch_and_response (model prompt f answer : String) (file : Option String) :
    ((runInferenceRequest model prompt file).isVision = file.isSome) ∧
    ((runInferenceRequest model prompt (some f)).formFields = ["model", "prompt", "file"]) ∧
    (runInferenceRequest model prompt (some f) =
      .vision [("model", model),
               ("prompt", if prompt = "" then "Describe this image" else prompt),
               ("file", f)]) ∧
    ((visionResponse answer).getField "response" = some (.str answer)) ∧
    (visionLogMsg (visionResponse answer) = if answer = "" then "No response" else answer) := by
  refine ⟨?_, rfl, rfl, rfl, ?_⟩
  · cases file <;> rfl
  · by_cases h : answer = "" <;>
      simp [visionLogMsg, visionResponse, Json.getField, jsOrDefault, jsTruthy, jsTemplate,
        Json.jsString, h]

/-- C7: spawning a provider with a live (non-Closed) session returns
the same session and the same manager state (no second process);
spawning right after a spawn is idempotent; and after close, a fresh
spawn produces a session whose identity differs from the closed one,
off a bumped process counter. -/
theorem spawn_idempotent_fresh_after_close (m : SessionManager) (p : String)
    (s : BrowserSession) :
    (((m.spawn p).2).spawn p = ((m.spawn p).1, (m.spawn p).2)) ∧
    (m.lookup p = some s → s.state ≠ SessionState.closed → m.spawn p = (s, m)) ∧
    (m.WF → m.lookup p = some s →
      ((m.close p).spawn p).1.id ≠ s.id ∧
      ((m.close p).spawn p).2.nextId = m.nextId + 1) := by
  refine ⟨?_, fun h1 h2 => spawn_live m p s h1 h2, fun hwf hl => ?_⟩
  · obtain ⟨h1, h2⟩ := spawn_lookup_self m p
    exact spawn_live _ _ _ h1 h2
  · have hmem : s ∈ m.table := List.mem_of_find?_eq_some hl
    have hid : s.id < m.nextId := hwf s hmem
    rw [spawn_fresh _ _ (lookup_close_eq_none m p)]
    exact ⟨by simp [SessionManager.close]; omega, rfl⟩

/-- C7 witness: a one-session manager; re-spawn is the identity and
spawn after close yields a distinct identity. -/
theorem spawn_idempotent_fresh_after_close_witness :
    ((⟨[⟨0, "chatgpt", SessionState.spawning⟩], 1⟩ : SessionManager).spawn "chatgpt" =
      (⟨0, "chatgpt", SessionState.spawning⟩, ⟨[⟨0, "chatgpt", SessionState.spawning⟩], 1⟩)) ∧
    ((((⟨[⟨0, "chatgpt", SessionState.spawning⟩], 1⟩ : SessionManager).close
        "chatgpt").spawn "chatgpt").1.id ≠ 0) :=
  ⟨(spawn_idempotent_fresh_after_close ⟨[⟨0, "chatgpt", SessionState.spawning⟩], 1⟩
      "chatgpt" ⟨0, "chatgpt", SessionState.spawning⟩).2.1 rfl (by decide),
   ((spawn_idempotent_fresh_after_close ⟨[⟨0, "chatgpt", SessionState.spawning⟩], 1⟩
      "chatgpt" ⟨0, "chatgpt", SessionState.spawning⟩).2.2
      (by unfold SessionManager.WF; decide) rfl).1⟩

/-- C9 (amended): when the plugins list contains the current model the
selection is unchanged; otherwise it resets to ollama when listed,
else to the first plugin when that is a non-empty string, else (empty
list, or empty-string first element) to ollama. -/
theorem nextModel_reset (cur : String) (plugins : List String) :
    (cur ∈ plugins → nextModel cur plugins = cur) ∧
    (cur ∉ plugins → "ollama" ∈ plugins → nextModel cur plugins = "ollama") ∧
    (∀ p0, cur ∉ plugins → "ollama" ∉ plugins → plugins.head? = some p0 →
      nextModel cur plugins = if p0 = "" then "ollama" else p0) ∧
    (cur ∉ plugins → "ollama" ∉ plugins → plugins.head? = none →
      nextModel cur plugins = "ollama") := by
  refine ⟨fun h => by simp [nextModel, h],
    fun h1 h2 => by simp [nextModel, h1, h2],
    fun p0 h1 h2 h3 => by simp [nextModel, h1, h2, h3, jsOrS],
    fun h1 h2 h3 => by simp [nextModel, h1, h2, h3, jsOrS]⟩

/-- C9 counterexample: with plugins the one-element list holding the
empty string and current model x, the claim as stated resets to the
first element (the empty string), but the code resets to ollama. -/
theorem nextModel_empty_first_plugin :
    ("x" ∉ ([""] : List String)) ∧ ("ollama" ∉ ([""] : List String)) ∧
    (([""] : List String).head? = some "") ∧
    nextModel "x" [""] = "ollama" ∧ ("ollama" : String) ≠ "" := by
  refine ⟨by decide, by decide, rfl, by decide, by decide⟩

/-- C9 witness: a plugins list not holding the current model nor
ollama resets the selection to its first element. -/
theorem nextModel_reset_witness : nextModel "x" ["mistral"] = "mistral" :=
  ((nextModel_reset "x" ["mistral"]).2.2.1 "mistral" (by decide) (by decide) rfl).trans
    (by decide)

/-- C10: a push prepends exactly one entry and truncates to at most
200 entries, the head right after a push is the pushed entry, and
after folding any nonempty sequence of pushes the head is the last
pushed entry and the length stays at most 200. -/
theorem pushLog_bounded_newest_first (e : LogEntry) (log : List LogEntry)
    (es : List LogEntry) (x : LogEntry) :
    (pushLog e log).length = min (log.length + 1) 200 ∧
    (pushLog e log).head? = some e ∧
    (es.getLast? = some x →
      ((es.foldl (fun l y => pushLog y l) log).head? = some x ∧
       (es.foldl (fun l y => pushLog y l) log).length ≤ 200)) := by
  refine ⟨by simp [pushLog]; omega, pushLog_head e log, fun h => ?_⟩
  have hne : es ≠ [] := by
    intro he
    rw [he] at h
    simp at h
  exact ⟨foldl_pushLog_head es x log h, foldl_pushLog_len es log hne⟩

/-- C10 witness: one push onto the empty log. -/
theorem pushLog_bounded_newest_first_witness :
    (([⟨"result", "ok"⟩] : List LogEntry).getLast? = some ⟨"result", "ok"⟩) ∧
    ((([⟨"result", "ok"⟩] : List LogEntry).foldl (fun l y => pushLog y l) []).head? =
      some ⟨"result", "ok"⟩) :=
  ⟨rfl,
   ((pushLog_bounded_newest_first ⟨"a", "b"⟩ [] [⟨"result", "ok"⟩] ⟨"result", "ok"⟩).2.2
      rfl).1⟩

end Chimera
